import Mathlib

/-!
A shallow embedding of the `app.py` Flask application of this repository
(a record-keeping app for a children's learning center), together with
proofs about its handlers.

Modelling conventions:
* Database tables (`User`, `Student`, `Activity`, `BehaviorLog`,
  `ActivityLog`) become Lean structures, and the database state is a
  `DB` record of lists of rows plus autoincrement counters.
* Each Flask POST handler becomes a pure function from the database
  state and the submitted form to the resulting persisted database
  state plus a success flag; `get_or_404` lookups become `Option`.
  A handler that returns a redirect without calling
  `db.session.commit()` leaves the persisted state unchanged
  (Flask-SQLAlchemy discards the uncommitted session at request
  teardown), so such paths return the original `DB`.
* Python `str.strip()`, `str.lower()` and string comparison are
  re-implemented over the character list of the string
  (`pyStrip`, `strLower`, `strLe`), because the corresponding core
  Lean functions are not kernel-reducible.
* Python integers are `Int`; calendar dates are a `Date` record of
  year/month/day; `strftime` keys are built with zero padding as on
  CPython/glibc.
* The chart averages, computed in Python with float division and
  `round(x, 2)`, are modelled exactly over `ℚ`, with
  round-half-to-even at two decimal places.
-/

set_option maxRecDepth 4000

/-! ### Python string primitives -/

/-- The ASCII whitespace characters removed by Python's `str.strip()`. -/
def isPySpace (c : Char) : Bool :=
  c == ' ' || c == '\t' || c == '\n' || c == '\r' || c == '\x0b' || c == '\x0c'

/-- Python `str.strip()`: drop leading and trailing whitespace. -/
def pyStrip (s : String) : String :=
  String.mk (((s.data.dropWhile isPySpace).reverse.dropWhile isPySpace).reverse)

/-- Python `str.lower()` (ASCII case folding, as used for e-mail normalization). -/
def strLower (s : String) : String :=
  String.mk (s.data.map Char.toLower)

/-- Lexicographic comparison of strings by code point, the order used both by
Python's `sorted` on the bucket keys and by Lean's string order. -/
def strLe (a b : String) : Bool :=
  go a.data b.data
where
  go : List Char → List Char → Bool
  | [], _ => true
  | _ :: _, [] => false
  | a :: as, b :: bs => if a < b then true else if b < a then false else go as bs

/-- Python's `sorted` on the (distinct) bucket keys: a stable sort by `strLe`.
On lists without duplicates every correct sort agrees, so insertion sort is a
faithful model of timsort here. -/
def sortKeys (l : List String) : List String :=
  l.insertionSort (fun a b => strLe a b = true)

/-! ### Data model (the five tables of `app.py`) -/

/-- A row of the `User` table. -/
structure UserR where
  id : Int
  name : String
  email : String
  password_hash : String
  role : String
deriving DecidableEq, Repr

/-- A row of the `Student` table. -/
structure StudentR where
  id : Int
  full_name : String
  age : Int
  gender : String
  notes : String
  created_by : Int
deriving DecidableEq, Repr

/-- A row of the `Activity` table. -/
structure ActivityR where
  id : Int
  title : String
  description : String
  category : String
  age_min : Int
  age_max : Int
  created_by : Int
deriving DecidableEq, Repr

/-- A calendar date (`datetime.date`). -/
structure Date where
  year : Nat
  month : Nat
  day : Nat
deriving DecidableEq, Repr

/-- A row of the `BehaviorLog` table. -/
structure BehaviorLogR where
  id : Int
  student_id : Int
  log_date : Date
  mood : Int
  focus : Int
  social : Int
  notes : String
deriving DecidableEq, Repr

/-- A row of the `ActivityLog` table. -/
structure ActivityLogR where
  id : Int
  student_id : Int
  activity_id : Int
  done_at : Date
  remark : String
deriving DecidableEq, Repr

/-- The persisted database state: the five tables plus autoincrement counters
for the primary keys. -/
structure DB where
  users : List UserR
  students : List StudentR
  activities : List ActivityR
  behavior_logs : List BehaviorLogR
  activity_logs : List ActivityLogR
  next_user_id : Int
  next_student_id : Int
  next_activity_id : Int
  next_log_id : Int
deriving DecidableEq, Repr

/-- An empty database, used for concrete evaluations. -/
def emptyDB : DB :=
  { users := [], students := [], activities := [], behavior_logs := []
  , activity_logs := [], next_user_id := 1, next_student_id := 1
  , next_activity_id := 1, next_log_id := 1 }

/-! ### Auth handlers (`register`, `login`) -/

/-- The flash message of a failed login, `app.py` line 125. -/
def loginFailMsg : String := "อีเมลหรือรหัสผ่านไม่ถูกต้อง"

/-- POST `/register` (`app.py` lines 96-114).  `hash` abstracts werkzeug's
`generate_password_hash`.  Returns the persisted database and whether a user
row was created (`False` = the handler flashed a warning and redirected back). -/
def register (hash : String → String) (db : DB) (name email password : String) :
    DB × Bool :=
  let name := pyStrip name
  let email := strLower (pyStrip email)
  if name = "" ∨ email = "" ∨ password = "" then
    (db, false)
  else if (db.users.find? (fun u => decide (u.email = email))).isSome then
    (db, false)
  else
    ({ db with
        users := db.users ++
          [{ id := db.next_user_id, name := name, email := email
           , password_hash := hash password, role := "teacher" }]
        next_user_id := db.next_user_id + 1 }, true)

/-- POST `/login` (`app.py` lines 116-126).  `checkPw hash pw` abstracts
werkzeug's `check_password_hash`.  Returns the established session (the
logged-in user id, or `none`) and the flashed message, if any. -/
def login (checkPw : String → String → Bool) (db : DB) (email password : String) :
    Option Int × Option String :=
  let email := strLower (pyStrip email)
  match db.users.find? (fun u => decide (u.email = email)) with
  | some u =>
      if checkPw u.password_hash password then (some u.id, none)
      else (none, some loginFailMsg)
  | none => (none, some loginFailMsg)

/-! ### Student handlers -/

/-- The fields of the student form as submitted (the handler itself applies
`strip()` to `full_name` and parses `age`). -/
structure StudentForm where
  full_name : String
  age : Int
  gender : String
  notes : String
deriving DecidableEq, Repr

/-- `SELECT * FROM student WHERE id = sid` (`Student.query.get`). -/
def find_student (db : DB) (sid : Int) : Option StudentR :=
  db.students.find? (fun s => decide (s.id = sid))

/-- POST `/students/new` (`app.py` lines 158-174).  Returns the persisted
database and whether the row was created. -/
def student_new (db : DB) (uid : Int) (f : StudentForm) : DB × Bool :=
  let full_name := pyStrip f.full_name
  if full_name = "" ∨ f.age < 6 ∨ f.age > 12 then
    (db, false)
  else
    ({ db with
        students := db.students ++
          [{ id := db.next_student_id, full_name := full_name, age := f.age
           , gender := f.gender, notes := f.notes, created_by := uid }]
        next_student_id := db.next_student_id + 1 }, true)

/-- POST `/students/<sid>/edit` (`app.py` lines 176-191).  `none` is the 404 of
`get_or_404`.  The handler mutates the fetched row and only then validates; on
validation failure it redirects without committing, so the persisted state is
the original `db`. -/
def student_edit (db : DB) (sid : Int) (f : StudentForm) : Option (DB × Bool) :=
  match find_student db sid with
  | none => none
  | some s =>
      let s' : StudentR :=
        { s with full_name := pyStrip f.full_name, age := f.age
               , gender := f.gender, notes := f.notes }
      if s'.full_name = "" ∨ s'.age < 6 ∨ s'.age > 12 then
        some (db, false)
      else
        some ({ db with
                 students := db.students.map (fun t => if t.id = sid then s' else t) },
              true)

/-- POST `/students/<sid>/delete` (`app.py` lines 193-200).  `none` is the 404;
otherwise the fetched row is deleted and the change committed. -/
def student_delete (db : DB) (sid : Int) : Option DB :=
  match find_student db sid with
  | none => none
  | some _ =>
      some { db with students := db.students.eraseP (fun s => decide (s.id = sid)) }

/-- Comparison of dates used for `order_by(... .desc())`. -/
def dateLe (a b : Date) : Bool :=
  if a.year < b.year then true
  else if b.year < a.year then false
  else if a.month < b.month then true
  else if b.month < a.month then false
  else a.day ≤ b.day

/-- GET `/students/<sid>` (`app.py` lines 202-211): the student, its 30
most-recent behavior logs, its 30 most-recent activity logs, and the
age-recommended activities.  `none` is the 404. -/
def student_detail (db : DB) (sid : Int) :
    Option (StudentR × List BehaviorLogR × List ActivityLogR × List ActivityR) :=
  match find_student db sid with
  | none => none
  | some s =>
      let logs := ((db.behavior_logs.filter (fun r => decide (r.student_id = sid))).insertionSort
        (fun a b => dateLe b.log_date a.log_date = true)).take 30
      let acts := ((db.activity_logs.filter (fun r => decide (r.student_id = sid))).insertionSort
        (fun a b => dateLe b.done_at a.done_at = true)).take 30
      let rec_acts := db.activities.filter
        (fun a => decide (a.age_min ≤ s.age) && decide (a.age_max ≥ s.age))
      some (s, logs, acts, rec_acts)

/-! ### Activity handlers -/

/-- The fields of the activity form as submitted (the handler applies
`strip()` to `title` and parses the two ages, defaulting to 6 and 12). -/
structure ActivityForm where
  title : String
  description : String
  category : String
  age_min : Int
  age_max : Int
deriving DecidableEq, Repr

/-- `Activity.query.get`. -/
def find_activity (db : DB) (aid : Int) : Option ActivityR :=
  db.activities.find? (fun a => decide (a.id = aid))

/-- POST `/activities/new` (`app.py` lines 225-245): rejects a blank title,
otherwise inserts the row. -/
def activity_new (db : DB) (uid : Int) (f : ActivityForm) : DB × Bool :=
  let title := pyStrip f.title
  if title = "" then
    (db, false)
  else
    ({ db with
        activities := db.activities ++
          [{ id := db.next_activity_id, title := title
           , description := f.description, category := f.category
           , age_min := f.age_min, age_max := f.age_max, created_by := uid }]
        next_activity_id := db.next_activity_id + 1 }, true)

/-- POST `/activities/<aid>/edit` (`app.py` lines 247-260).  `none` is the 404.
Unlike `activity_new` and `student_edit`, this handler performs NO validation:
it overwrites every field and commits unconditionally. -/
def activity_edit (db : DB) (aid : Int) (f : ActivityForm) : Option (DB × Bool) :=
  match find_activity db aid with
  | none => none
  | some item =>
      let item' : ActivityR :=
        { item with title := pyStrip f.title, description := f.description
                  , category := f.category, age_min := f.age_min
                  , age_max := f.age_max }
      some ({ db with
               activities := db.activities.map (fun t => if t.id = aid then item' else t) },
            true)

/-- POST `/activities/<aid>/delete` (`app.py` lines 262-269). -/
def activity_delete (db : DB) (aid : Int) : Option DB :=
  match find_activity db aid with
  | none => none
  | some _ =>
      some { db with activities := db.activities.eraseP (fun a => decide (a.id = aid)) }

/-! ### Behavior-log aggregation (`_aggregate_behavior`, `api_behavior`) -/

/-- Zero-pad a number to two digits, as `strftime`'s `%m` and `%d` do. -/
def pad2 (n : Nat) : String :=
  if n < 10 then "0" ++ toString n else toString n

/-- The bucket key of one row: `%Y-%m-%d` for `"daily"`, `%Y-%m` for
`"monthly"`, `%Y` for everything else (the trailing `else` of the loop in
`app.py` lines 316-321). -/
def keyOf (period : String) (d : Date) : String :=
  if period = "daily" then
    toString d.year ++ "-" ++ pad2 d.month ++ "-" ++ pad2 d.day
  else if period = "monthly" then
    toString d.year ++ "-" ++ pad2 d.month
  else
    toString d.year

/-- One accumulator cell of the `defaultdict`:
`{"mood":0,"focus":0,"social":0,"n":0}`. -/
structure Bucket where
  mood : Int
  focus : Int
  social : Int
  n : Int
deriving DecidableEq, Repr

/-- The `defaultdict` default value. -/
def Bucket.zero : Bucket := { mood := 0, focus := 0, social := 0, n := 0 }

/-- The four `+=` statements of the loop body. -/
def Bucket.add (b : Bucket) (r : BehaviorLogR) : Bucket :=
  { mood := b.mood + r.mood, focus := b.focus + r.focus
  , social := b.social + r.social, n := b.n + 1 }

/-- One iteration of the aggregation loop on the association-list model of the
`defaultdict`: update the key's cell if present, else append a fresh cell. -/
def insertRow (key : Date → String) (m : List (String × Bucket)) (r : BehaviorLogR) :
    List (String × Bucket) :=
  let k := key r.log_date
  if (m.find? (fun q => decide (q.1 = k))).isSome then
    m.map (fun q => if q.1 = k then (q.1, q.2.add r) else q)
  else
    m ++ [(k, Bucket.zero.add r)]

/-- `buckets[k]` on the association-list model. -/
def lookupB (m : List (String × Bucket)) (k : String) : Bucket :=
  match m.find? (fun q => decide (q.1 = k)) with
  | some q => q.2
  | none => Bucket.zero

/-- The JSON object returned by the endpoint: four parallel sequences. -/
structure AggResult where
  labels : List String
  mood : List ℚ
  focus : List ℚ
  social : List ℚ

/-- Round a rational to the nearest integer, halves to even, as Python's
`round` does. -/
def roundHalfEven (q : ℚ) : ℤ :=
  if q - ⌊q⌋ < 1 / 2 then ⌊q⌋
  else if 1 / 2 < q - ⌊q⌋ then ⌊q⌋ + 1
  else if ⌊q⌋ % 2 = 0 then ⌊q⌋ else ⌊q⌋ + 1

/-- Python `round(q, 2)`, modelled exactly over `ℚ`. -/
def round2 (q : ℚ) : ℚ :=
  (roundHalfEven (q * 100) : ℚ) / 100

/-- The body of `_aggregate_behavior` with the per-row key function abstracted
out: filter the logs to the student, fold them into the bucket map, sort the
keys, and map each key to its three rounded averages. -/
def aggregateBy (key : Date → String) (logs : List BehaviorLogR) (sid : Int) :
    AggResult :=
  let rows := logs.filter (fun r => decide (r.student_id = sid))
  let buckets := rows.foldl (insertRow key) []
  let labels := sortKeys (buckets.map Prod.fst)
  { labels := labels
  , mood := labels.map (fun k =>
      round2 (((lookupB buckets k).mood : ℚ) / ((lookupB buckets k).n : ℚ)))
  , focus := labels.map (fun k =>
      round2 (((lookupB buckets k).focus : ℚ) / ((lookupB buckets k).n : ℚ)))
  , social := labels.map (fun k =>
      round2 (((lookupB buckets k).social : ℚ) / ((lookupB buckets k).n : ℚ))) }

/-- `_aggregate_behavior(sid, period)` (`app.py` lines 312-330), with the
`BehaviorLog` table passed explicitly. -/
def aggregate_behavior (logs : List BehaviorLogR) (sid : Int) (period : String) :
    AggResult :=
  aggregateBy (keyOf period) logs sid

/-- GET `/api/charts/behavior/<sid>` (`app.py` lines 332-337): the `period`
query parameter defaults to `"daily"`. -/
def api_behavior (db : DB) (sid : Int) (periodParam : Option String) : AggResult :=
  aggregate_behavior db.behavior_logs sid (periodParam.getD "daily")

/-! ### Spec-side descriptions (for the refinement statements) -/

/-- Modelled from the spec: the rows of one aggregation bucket — the student's
logs whose calendar key is `k`. -/
def specBucket (logs : List BehaviorLogR) (sid : Int) (period : String) (k : String) :
    List BehaviorLogR :=
  (logs.filter (fun r => decide (r.student_id = sid))).filter
    (fun r => decide (keyOf period r.log_date = k))

/-- Modelled from the spec: the arithmetic mean of a list of integer scores. -/
def specMean (xs : List Int) : ℚ :=
  (xs.sum : ℚ) / (xs.length : ℚ)

/-! ### Concrete rows and databases used in examples and witnesses -/

/-- Two behavior logs of student 1 on 2024-01-01, with moods 4 and 2
(the example of the spec). -/
def exLog1 : BehaviorLogR :=
  { id := 1, student_id := 1, log_date := ⟨2024, 1, 1⟩
  , mood := 4, focus := 3, social := 2, notes := "" }

/-- Second example log, same date, mood 2. -/
def exLog2 : BehaviorLogR :=
  { id := 2, student_id := 1, log_date := ⟨2024, 1, 1⟩
  , mood := 2, focus := 4, social := 5, notes := "" }

/-- A concrete stand-in for `generate_password_hash`. -/
def hashId : String → String := fun s => "h:" ++ s

/-- A concrete stand-in for `check_password_hash` that never matches. -/
def cpNone : String → String → Bool := fun _ _ => false

/-- A database holding one registered user. -/
def dbOneUser : DB :=
  { emptyDB with users := [⟨1, "Admin", "a@b.c", "x", "admin"⟩], next_user_id := 2 }

/-- A database holding one student. -/
def dbOneStudent : DB :=
  { emptyDB with students := [⟨1, "Ann", 8, "f", "", 1⟩], next_student_id := 2 }

/-- A database holding one activity. -/
def dbOneActivity : DB :=
  { emptyDB with activities := [⟨1, "Reading", "d", "c", 6, 12, 1⟩], next_activity_id := 2 }

/-! ### Order properties of `strLe` -/

theorem strLe_go_total : ∀ as bs : List Char, strLe.go as bs = true ∨ strLe.go bs as = true := by
  intro as
  induction as with
  | nil => intro bs; left; rfl
  | cons a as ih =>
      intro bs
      cases bs with
      | nil => right; rfl
      | cons b bs =>
          rcases lt_trichotomy a b with h | h | h
          · left; simp [strLe.go, h]
          · subst h
            rcases ih bs with h' | h'
            · left; simp [strLe.go, h', lt_irrefl]
            · right; simp [strLe.go, h', lt_irrefl]
          · right; simp [strLe.go, h]

theorem strLe_go_trans : ∀ as bs cs : List Char,
    strLe.go as bs = true → strLe.go bs cs = true → strLe.go as cs = true := by
  intro as
  induction as with
  | nil => intro bs cs _ _; rfl
  | cons a as ih =>
      intro bs cs h1 h2
      cases bs with
      | nil => simp [strLe.go] at h1
      | cons b bs =>
          cases cs with
          | nil => simp [strLe.go] at h2
          | cons c cs =>
              simp only [strLe.go] at h1 h2 ⊢
              rcases lt_trichotomy a b with hab | hab | hab
              · rcases lt_trichotomy b c with hbc | hbc | hbc
                · simp [lt_trans hab hbc]
                · subst hbc; simp [hab]
                · simp [hbc, asymm hbc] at h2
              · subst hab
                rcases lt_trichotomy a c with hac | hac | hac
                · simp [hac]
                · subst hac
                  simp [lt_irrefl] at h1 h2 ⊢
                  exact ih _ _ h1 h2
                · simp [hac, asymm hac] at h2
              · simp [hab, asymm hab] at h1

instance : IsTotal String (fun a b => strLe a b = true) :=
  ⟨fun a b => strLe_go_total a.data b.data⟩

instance : IsTrans String (fun a b => strLe a b = true) :=
  ⟨fun a b c => strLe_go_trans a.data b.data c.data⟩

/-- `sortKeys` returns a sorted list. -/
theorem sortKeys_sorted (l : List String) :
    (sortKeys l).Pairwise (fun a b => strLe a b = true) :=
  List.sorted_insertionSort _ l

/-- `sortKeys` permutes its input. -/
theorem sortKeys_perm (l : List String) : (sortKeys l).Perm l :=
  List.perm_insertionSort _ l

/-! ### The bucket map refines per-key filtering -/

theorem find?_map_keyfix (f : String × Bucket → String × Bucket)
    (hf : ∀ q, (f q).1 = q.1) (m : List (String × Bucket)) (k : String) :
    (m.map f).find? (fun q => decide (q.1 = k)) =
      (m.find? (fun q => decide (q.1 = k))).map f := by
  induction m with
  | nil => rfl
  | cons q m ih =>
      by_cases hq : q.1 = k
      · simp [List.find?, hf q, hq]
      · simp [List.find?, hf q, hq, ih]

theorem lookupB_insertRow (key : Date → String) (m : List (String × Bucket))
    (r : BehaviorLogR) (k : String) :
    lookupB (insertRow key m r) k =
      if key r.log_date = k then (lookupB m k).add r else lookupB m k := by
  unfold insertRow lookupB
  by_cases hmem : (m.find? (fun q => decide (q.1 = key r.log_date))).isSome
  · simp only [hmem, if_true]
    rw [find?_map_keyfix _ (by intro q; by_cases h : q.1 = key r.log_date <;> simp [h])]
    cases hfk : m.find? (fun q => decide (q.1 = k)) with
    | none =>
        have hne : ¬ key r.log_date = k := by
          intro h; rw [h] at hmem; simp [hfk] at hmem
        simp [hfk, hne]
    | some q =>
        have hq1 : q.1 = k := by simpa using List.find?_some hfk
        by_cases hkk : key r.log_date = k
        · simp [hfk, hkk, hq1]
        · have : ¬ q.1 = key r.log_date := by rw [hq1]; intro h; exact hkk h.symm
          simp [hfk, hkk, this]
  · simp only [hmem, if_false, Bool.false_eq_true]
    rw [List.find?_append]
    cases hfk : m.find? (fun q => decide (q.1 = k)) with
    | some q =>
        have hne : ¬ key r.log_date = k := by
          intro h; rw [h] at hmem; simp [hfk] at hmem
        simp [hfk, hne]
    | none =>
        by_cases hkk : key r.log_date = k
        · simp [hfk, hkk, List.find?]
        · simp [hfk, hkk, List.find?]

theorem lookupB_foldl (key : Date → String) :
    ∀ (rows : List BehaviorLogR) (m : List (String × Bucket)) (k : String),
    lookupB (rows.foldl (insertRow key) m) k =
      (rows.filter (fun r => decide (key r.log_date = k))).foldl Bucket.add (lookupB m k) := by
  intro rows
  induction rows with
  | nil => intro m k; rfl
  | cons r rows ih =>
      intro m k
      simp only [List.foldl_cons, List.filter_cons]
      by_cases h : key r.log_date = k
      · simp [ih, lookupB_insertRow, h]
      · simp [ih, lookupB_insertRow, h]

theorem foldl_bucket_add (xs : List BehaviorLogR) : ∀ a : Bucket,
    xs.foldl Bucket.add a =
      { mood := a.mood + (xs.map (·.mood)).sum
      , focus := a.focus + (xs.map (·.focus)).sum
      , social := a.social + (xs.map (·.social)).sum
      , n := a.n + (xs.length : Int) } := by
  induction xs with
  | nil => intro a; simp
  | cons x xs ih =>
      intro a
      simp only [List.foldl_cons, List.map_cons, List.sum_cons, List.length_cons, ih, Bucket.add]
      simp only [Bucket.mk.injEq]
      refine ⟨by ring, by ring, by ring, by push_cast; ring⟩

/-- The cell stored at key `k` after folding all rows into the map holds the
componentwise sums and the row count of the rows whose key is `k`. -/
theorem lookupB_buckets (key : Date → String) (rows : List BehaviorLogR) (k : String) :
    lookupB (rows.foldl (insertRow key) []) k =
      { mood := ((rows.filter (fun r => decide (key r.log_date = k))).map (·.mood)).sum
      , focus := ((rows.filter (fun r => decide (key r.log_date = k))).map (·.focus)).sum
      , social := ((rows.filter (fun r => decide (key r.log_date = k))).map (·.social)).sum
      , n := ((rows.filter (fun r => decide (key r.log_date = k))).length : Int) } := by
  rw [lookupB_foldl, foldl_bucket_add]
  simp [lookupB, List.find?, Bucket.zero]

theorem mem_keys_insertRow (key : Date → String) (m : List (String × Bucket))
    (r : BehaviorLogR) (k : String) :
    k ∈ (insertRow key m r).map Prod.fst ↔
      k ∈ m.map Prod.fst ∨ k = key r.log_date := by
  unfold insertRow
  by_cases hmem : (m.find? (fun q => decide (q.1 = key r.log_date))).isSome
  · simp only [hmem, if_true]
    have hkeys :
        (m.map (fun q => if q.1 = key r.log_date then (q.1, q.2.add r) else q)).map Prod.fst
          = m.map Prod.fst := by
      rw [List.map_map]
      congr 1
      funext q
      by_cases h : q.1 = key r.log_date <;> simp [h]
    rw [hkeys]
    constructor
    · exact Or.inl
    · rintro (h | rfl)
      · exact h
      · rcases Option.isSome_iff_exists.mp hmem with ⟨q, hq⟩
        have hqm := List.mem_of_find?_eq_some hq
        have hq1 : q.1 = key r.log_date := by simpa using List.find?_some hq
        exact List.mem_map.mpr ⟨q, hqm, hq1⟩
  · simp only [hmem, if_false, Bool.false_eq_true, List.map_append]
    simp

theorem mem_keys_foldl (key : Date → String) :
    ∀ (rows : List BehaviorLogR) (m : List (String × Bucket)) (k : String),
    k ∈ ((rows.foldl (insertRow key) m).map Prod.fst) ↔
      k ∈ m.map Prod.fst ∨ ∃ r ∈ rows, key r.log_date = k := by
  intro rows
  induction rows with
  | nil => intro m k; simp
  | cons r rows ih =>
      intro m k
      simp only [List.foldl_cons, ih, mem_keys_insertRow, List.mem_cons]
      constructor
      · rintro ((h | rfl) | ⟨r', hr', hk⟩)
        · exact Or.inl h
        · exact Or.inr ⟨r, Or.inl rfl, rfl⟩
        · exact Or.inr ⟨r', Or.inr hr', hk⟩
      · rintro (h | ⟨r', (rfl | hr'), hk⟩)
        · exact Or.inl (Or.inl h)
        · exact Or.inl (Or.inr hk.symm)
        · exact Or.inr ⟨r', hr', hk⟩

/-! ### Characterizations of `aggregateBy` -/

theorem agg_labels_def (key : Date → String) (logs : List BehaviorLogR) (sid : Int) :
    (aggregateBy key logs sid).labels =
      sortKeys (((logs.filter (fun r => decide (r.student_id = sid))).foldl
        (insertRow key) []).map Prod.fst) := rfl

theorem agg_mood_def (key : Date → String) (logs : List BehaviorLogR) (sid : Int) :
    (aggregateBy key logs sid).mood =
      (aggregateBy key logs sid).labels.map (fun k =>
        round2 ((((lookupB ((logs.filter (fun r => decide (r.student_id = sid))).foldl
            (insertRow key) []) k).mood : ℚ)) /
          ((lookupB ((logs.filter (fun r => decide (r.student_id = sid))).foldl
            (insertRow key) []) k).n : ℚ))) := rfl

theorem agg_focus_def (key : Date → String) (logs : List BehaviorLogR) (sid : Int) :
    (aggregateBy key logs sid).focus =
      (aggregateBy key logs sid).labels.map (fun k =>
        round2 ((((lookupB ((logs.filter (fun r => decide (r.student_id = sid))).foldl
            (insertRow key) []) k).focus : ℚ)) /
          ((lookupB ((logs.filter (fun r => decide (r.student_id = sid))).foldl
            (insertRow key) []) k).n : ℚ))) := rfl

theorem agg_social_def (key : Date → String) (logs : List BehaviorLogR) (sid : Int) :
    (aggregateBy key logs sid).social =
      (aggregateBy key logs sid).labels.map (fun k =>
        round2 ((((lookupB ((logs.filter (fun r => decide (r.student_id = sid))).foldl
            (insertRow key) []) k).social : ℚ)) /
          ((lookupB ((logs.filter (fun r => decide (r.student_id = sid))).foldl
            (insertRow key) []) k).n : ℚ))) := rfl

/-- The labels of an aggregation are sorted in the `strLe` order. -/
theorem agg_labels_sorted (key : Date → String) (logs : List BehaviorLogR) (sid : Int) :
    (aggregateBy key logs sid).labels.Pairwise (fun a b => strLe a b = true) := by
  rw [agg_labels_def]; exact sortKeys_sorted _

/-- A key appears among the labels exactly when some log row of the student
produces it. -/
theorem agg_mem_labels (key : Date → String) (logs : List BehaviorLogR) (sid : Int)
    (k : String) :
    k ∈ (aggregateBy key logs sid).labels ↔
      ∃ r ∈ logs, r.student_id = sid ∧ key r.log_date = k := by
  rw [agg_labels_def, (sortKeys_perm _).mem_iff, mem_keys_foldl]
  simp [List.mem_filter, and_assoc]

/-- The moods sequence refines the spec: one rounded bucket mean per label. -/
theorem agg_mood_spec (key : Date → String) (logs : List BehaviorLogR) (sid : Int) :
    (aggregateBy key logs sid).mood =
      (aggregateBy key logs sid).labels.map (fun k =>
        round2 (specMean (((logs.filter (fun r => decide (r.student_id = sid))).filter
          (fun r => decide (key r.log_date = k))).map (·.mood)))) := by
  rw [agg_mood_def]
  refine congrFun (congrArg List.map (funext fun k => ?_)) _
  rw [lookupB_buckets]
  unfold specMean
  dsimp only
  rw [List.length_map]
  norm_cast

theorem agg_focus_spec (key : Date → String) (logs : List BehaviorLogR) (sid : Int) :
    (aggregateBy key logs sid).focus =
      (aggregateBy key logs sid).labels.map (fun k =>
        round2 (specMean (((logs.filter (fun r => decide (r.student_id = sid))).filter
          (fun r => decide (key r.log_date = k))).map (·.focus)))) := by
  rw [agg_focus_def]
  refine congrFun (congrArg List.map (funext fun k => ?_)) _
  rw [lookupB_buckets]
  unfold specMean
  dsimp only
  rw [List.length_map]
  norm_cast

theorem agg_social_spec (key : Date → String) (logs : List BehaviorLogR) (sid : Int) :
    (aggregateBy key logs sid).social =
      (aggregateBy key logs sid).labels.map (fun k =>
        round2 (specMean (((logs.filter (fun r => decide (r.student_id = sid))).filter
          (fun r => decide (key r.log_date = k))).map (·.social)))) := by
  rw [agg_social_def]
  refine congrFun (congrArg List.map (funext fun k => ?_)) _
  rw [lookupB_buckets]
  unfold specMean
  dsimp only
  rw [List.length_map]
  norm_cast

/-- Rounding an exact multiple of `1/100`. -/
theorem round2_of_mul_eq (q : ℚ) (z : ℤ) (h : q * 100 = (z : ℚ)) :
    round2 q = (z : ℚ) / 100 := by
  rw [round2, h]
  have hz : roundHalfEven ((z : ℚ)) = z := by
    unfold roundHalfEven
    rw [Int.floor_intCast]
    simp only [sub_self]
    norm_num
  rw [hz]

/-! ### Claim theorems -/

/-- C5: for a student with zero BehaviorLog rows (in particular a student id
that does not exist), the aggregation returns four empty sequences for every
period value, and does not raise an error. -/
theorem aggregation_empty_when_no_logs (logs : List BehaviorLogR) (sid : Int)
    (period : String)
    (h : logs.filter (fun r => decide (r.student_id = sid)) = []) :
    aggregate_behavior logs sid period =
      { labels := [], mood := [], focus := [], social := [] } := by
  simp only [aggregate_behavior, aggregateBy, h]
  rfl

/-- C5 witness: student 99 has no logs in `[exLog1]`, and the aggregation on it
is four empty sequences. -/
theorem aggregation_empty_when_no_logs_witness :
    [exLog1].filter (fun r => decide (r.student_id = 99)) = [] ∧
    aggregate_behavior [exLog1] 99 "daily" =
      { labels := [], mood := [], focus := [], social := [] } :=
  ⟨by decide, aggregation_empty_when_no_logs [exLog1] 99 "daily" (by decide)⟩

/-- For a period that is neither `"daily"` nor `"monthly"`, the per-row key is
the year key, i.e. the same key `"yearly"` produces. -/
theorem keyOf_eq_yearly (period : String) (hd : period ≠ "daily")
    (hm : period ≠ "monthly") : keyOf period = keyOf "yearly" := by
  funext d
  simp [keyOf, hd, hm]

/-- C9: every period string other than `"daily"` and `"monthly"` — including
`"yearly"` but also unrecognized values like `"weekly"` or `""` — buckets by
year, so an invalid period selector silently yields the yearly aggregation. -/
theorem aggregation_period_fallback_yearly (period : String)
    (hd : period ≠ "daily") (hm : period ≠ "monthly") :
    (∀ d : Date, keyOf period d = toString d.year) ∧
    ∀ (logs : List BehaviorLogR) (sid : Int),
      aggregate_behavior logs sid period = aggregate_behavior logs sid "yearly" := by
  constructor
  · intro d
    simp [keyOf, hd, hm]
  · intro logs sid
    unfold aggregate_behavior
    rw [keyOf_eq_yearly period hd hm]

/-- C9 witness: the unrecognized period `"weekly"` aggregates exactly like
`"yearly"`. -/
theorem aggregation_period_fallback_yearly_witness :
    (∀ d : Date, keyOf "weekly" d = toString d.year) ∧
    ∀ (logs : List BehaviorLogR) (sid : Int),
      aggregate_behavior logs sid "weekly" = aggregate_behavior logs sid "yearly" :=
  aggregation_period_fallback_yearly "weekly" (by decide) (by decide)

/-- C10: every key in the labels was inserted by at least one row, so each
bucket count `n` is at least 1 and the average divisions never divide by zero;
and the four returned sequences have equal length. -/
theorem aggregation_no_div_zero_parallel (logs : List BehaviorLogR) (sid : Int)
    (period : String) :
    (∀ k ∈ (aggregate_behavior logs sid period).labels,
      1 ≤ (lookupB ((logs.filter (fun r => decide (r.student_id = sid))).foldl
            (insertRow (keyOf period)) []) k).n ∧
      specBucket logs sid period k ≠ []) ∧
    (aggregate_behavior logs sid period).mood.length =
      (aggregate_behavior logs sid period).labels.length ∧
    (aggregate_behavior logs sid period).focus.length =
      (aggregate_behavior logs sid period).labels.length ∧
    (aggregate_behavior logs sid period).social.length =
      (aggregate_behavior logs sid period).labels.length := by
  refine ⟨?_, ?_, ?_, ?_⟩
  · intro k hk
    obtain ⟨r, hr, hsid, hkey⟩ := (agg_mem_labels (keyOf period) logs sid k).mp hk
    have hmem : r ∈ (logs.filter (fun r => decide (r.student_id = sid))).filter
        (fun r => decide (keyOf period r.log_date = k)) := by
      simp [List.mem_filter, hr, hsid, hkey]
    constructor
    · rw [lookupB_buckets]
      have hpos : 0 < ((logs.filter (fun r => decide (r.student_id = sid))).filter
          (fun r => decide (keyOf period r.log_date = k))).length :=
        List.length_pos.mpr (List.ne_nil_of_mem hmem)
      dsimp only
      exact_mod_cast hpos
    · exact List.ne_nil_of_mem hmem
  · show (aggregateBy (keyOf period) logs sid).mood.length =
      (aggregateBy (keyOf period) logs sid).labels.length
    rw [agg_mood_def, List.length_map]
  · show (aggregateBy (keyOf period) logs sid).focus.length =
      (aggregateBy (keyOf period) logs sid).labels.length
    rw [agg_focus_def, List.length_map]
  · show (aggregateBy (keyOf period) logs sid).social.length =
      (aggregateBy (keyOf period) logs sid).labels.length
    rw [agg_social_def, List.length_map]

/-- C10 witness: the daily label of the two example logs names a nonempty
bucket. -/
theorem aggregation_no_div_zero_parallel_witness :
    specBucket [exLog1, exLog2] 1 "daily" "2024-01-01" ≠ [] :=
  (((aggregation_no_div_zero_parallel [exLog1, exLog2] 1 "daily").1
    "2024-01-01" (by decide)).2)

/-- C1: for every student with at least one BehaviorLog, the aggregation
buckets the student's logs by calendar key (exact date for `"daily"`,
year-month for `"monthly"`, year for `"yearly"`), returns the bucket keys
sorted lexicographically as labels, and for each bucket returns the arithmetic
mean of mood, focus and social over the rows of that bucket, rounded to 2
decimal places; in particular two daily logs on 2024-01-01 with moods 4 and 2
yield the single bucket `"2024-01-01"` with mood average 3.0. -/
theorem behavior_aggregation_correct (logs : List BehaviorLogR) (sid : Int)
    (period : String) (hne : ∃ r ∈ logs, r.student_id = sid) :
    ((aggregate_behavior logs sid period).labels ≠ [] ∧
     (aggregate_behavior logs sid period).labels.Pairwise
       (fun a b => strLe a b = true) ∧
     (∀ k, k ∈ (aggregate_behavior logs sid period).labels ↔
        ∃ r ∈ logs, r.student_id = sid ∧ keyOf period r.log_date = k) ∧
     (aggregate_behavior logs sid period).mood =
       (aggregate_behavior logs sid period).labels.map (fun k =>
         round2 (specMean ((specBucket logs sid period k).map (·.mood)))) ∧
     (aggregate_behavior logs sid period).focus =
       (aggregate_behavior logs sid period).labels.map (fun k =>
         round2 (specMean ((specBucket logs sid period k).map (·.focus)))) ∧
     (aggregate_behavior logs sid period).social =
       (aggregate_behavior logs sid period).labels.map (fun k =>
         round2 (specMean ((specBucket logs sid period k).map (·.social))))) ∧
    ((∀ d : Date,
        keyOf "daily" d = toString d.year ++ "-" ++ pad2 d.month ++ "-" ++ pad2 d.day ∧
        keyOf "monthly" d = toString d.year ++ "-" ++ pad2 d.month ∧
        keyOf "yearly" d = toString d.year) ∧
     aggregate_behavior [exLog1, exLog2] 1 "daily" =
       { labels := ["2024-01-01"], mood := [3], focus := [7/2], social := [7/2] }) := by
  refine ⟨⟨?_, agg_labels_sorted _ _ _, agg_mem_labels _ _ _,
    agg_mood_spec _ _ _, agg_focus_spec _ _ _, agg_social_spec _ _ _⟩, ?_, ?_⟩
  · obtain ⟨r, hr, hsid⟩ := hne
    exact List.ne_nil_of_mem
      ((agg_mem_labels (keyOf period) logs sid (keyOf period r.log_date)).mpr
        ⟨r, hr, hsid, rfl⟩)
  · intro d
    refine ⟨rfl, ?_, ?_⟩
    · rw [keyOf, if_neg (by decide), if_pos rfl]
    · rw [keyOf, if_neg (by decide), if_neg (by decide)]
  · have hl : (aggregateBy (keyOf "daily") [exLog1, exLog2] 1).labels =
        ["2024-01-01"] := by decide
    have hm : (aggregateBy (keyOf "daily") [exLog1, exLog2] 1).mood = [3] := by
      rw [agg_mood_spec, hl]
      simp only [List.map_cons, List.map_nil]
      rw [show (([exLog1, exLog2].filter (fun r => decide (r.student_id = (1:Int)))).filter
            (fun r => decide (keyOf "daily" r.log_date = "2024-01-01"))).map
            (fun x => x.mood) = [4, 2] from by decide]
      rw [round2_of_mul_eq _ 300 (by norm_num [specMean])]
      norm_num
    have hf : (aggregateBy (keyOf "daily") [exLog1, exLog2] 1).focus = [7/2] := by
      rw [agg_focus_spec, hl]
      simp only [List.map_cons, List.map_nil]
      rw [show (([exLog1, exLog2].filter (fun r => decide (r.student_id = (1:Int)))).filter
            (fun r => decide (keyOf "daily" r.log_date = "2024-01-01"))).map
            (fun x => x.focus) = [3, 4] from by decide]
      rw [round2_of_mul_eq _ 350 (by norm_num [specMean])]
      norm_num
    have hs : (aggregateBy (keyOf "daily") [exLog1, exLog2] 1).social = [7/2] := by
      rw [agg_social_spec, hl]
      simp only [List.map_cons, List.map_nil]
      rw [show (([exLog1, exLog2].filter (fun r => decide (r.student_id = (1:Int)))).filter
            (fun r => decide (keyOf "daily" r.log_date = "2024-01-01"))).map
            (fun x => x.social) = [2, 5] from by decide]
      rw [round2_of_mul_eq _ 350 (by norm_num [specMean])]
      norm_num
    have hsplit : aggregate_behavior [exLog1, exLog2] 1 "daily" =
        AggResult.mk (aggregateBy (keyOf "daily") [exLog1, exLog2] 1).labels
          (aggregateBy (keyOf "daily") [exLog1, exLog2] 1).mood
          (aggregateBy (keyOf "daily") [exLog1, exLog2] 1).focus
          (aggregateBy (keyOf "daily") [exLog1, exLog2] 1).social := rfl
    rw [hsplit, hl, hm, hf, hs]

/-- C1 witness: applied to the two example logs of student 1. -/
theorem behavior_aggregation_correct_witness :
    (∃ r ∈ [exLog1, exLog2], r.student_id = 1) ∧
    (aggregate_behavior [exLog1, exLog2] 1 "daily").labels ≠ [] :=
  ⟨by decide,
    (behavior_aggregation_correct [exLog1, exLog2] 1 "daily" (by decide)).1.1⟩

/-- C2: Student Create and Update both reject a submission exactly when the
submitted full name is blank (empty after stripping) or the submitted age is
outside [6,12], creating/saving nothing on rejection; boundary ages 6 and 12
are accepted while 5 and 13 are rejected. -/
theorem student_validation_boundaries :
    (∀ (db : DB) (uid : Int) (f : StudentForm),
      ((student_new db uid f).2 = false ↔
        pyStrip f.full_name = "" ∨ f.age < 6 ∨ f.age > 12) ∧
      ((student_new db uid f).2 = false → (student_new db uid f).1 = db)) ∧
    (∀ (db : DB) (sid : Int) (f : StudentForm) (s : StudentR),
      find_student db sid = some s →
      (student_edit db sid f = some (db, false) ↔
        pyStrip f.full_name = "" ∨ f.age < 6 ∨ f.age > 12)) ∧
    ((student_new emptyDB 1 ⟨"Ann", 5, "", ""⟩).2 = false ∧
     (student_new emptyDB 1 ⟨"Ann", 6, "", ""⟩).2 = true ∧
     (student_new emptyDB 1 ⟨"Ann", 12, "", ""⟩).2 = true ∧
     (student_new emptyDB 1 ⟨"Ann", 13, "", ""⟩).2 = false) := by
  refine ⟨?_, ?_, by decide, by decide, by decide, by decide⟩
  · intro db uid f
    constructor
    · unfold student_new
      by_cases h : pyStrip f.full_name = "" ∨ f.age < 6 ∨ f.age > 12 <;> simp [h]
    · unfold student_new
      by_cases h : pyStrip f.full_name = "" ∨ f.age < 6 ∨ f.age > 12 <;> simp [h]
  · intro db sid f s hs
    unfold student_edit
    rw [hs]
    dsimp only
    by_cases h : pyStrip f.full_name = "" ∨ f.age < 6 ∨ f.age > 12
    · rw [if_pos h]
      simp [h]
    · rw [if_neg h]
      simp [h]

/-- C2 witness: editing the one-student database with a blank name is
rejected. -/
theorem student_validation_boundaries_witness :
    student_edit dbOneStudent 1 ⟨"", 8, "", ""⟩ = some (dbOneStudent, false) :=
  (student_validation_boundaries.2.1 dbOneStudent 1 ⟨"", 8, "", ""⟩
    ⟨1, "Ann", 8, "f", "", 1⟩ (by decide)).mpr (Or.inl (by decide))

/-- C8: Student Update is atomic on validation failure: when the submitted
full name is blank or the submitted age is outside [6,12], the persisted
database is unchanged, so the stored row keeps all its prior field values. -/
theorem student_edit_atomic_on_failure (db : DB) (sid : Int) (f : StudentForm)
    (s : StudentR) (hs : find_student db sid = some s)
    (hbad : pyStrip f.full_name = "" ∨ f.age < 6 ∨ f.age > 12) :
    student_edit db sid f = some (db, false) ∧
    (∀ (db' : DB) (ok : Bool), student_edit db sid f = some (db', ok) →
      find_student db' sid = some s) := by
  have h1 : student_edit db sid f = some (db, false) := by
    unfold student_edit
    rw [hs]
    dsimp only
    rw [if_pos hbad]
  refine ⟨h1, ?_⟩
  intro db' ok h
  rw [h1] at h
  have h2 := Option.some.inj h
  rw [Prod.mk.injEq] at h2
  obtain ⟨h3, -⟩ := h2
  rw [← h3]
  exact hs

/-- C8 witness: a whitespace-only name on the one-student database leaves the
stored row intact. -/
theorem student_edit_atomic_on_failure_witness :
    student_edit dbOneStudent 1 ⟨" ", 8, "x", "y"⟩ = some (dbOneStudent, false) :=
  (student_edit_atomic_on_failure dbOneStudent 1 ⟨" ", 8, "x", "y"⟩
    ⟨1, "Ann", 8, "f", "", 1⟩ (by decide) (Or.inl (by decide))).1

theorem find?_eraseP_of_nodup (sid : Int) :
    ∀ l : List StudentR, (l.map (·.id)).Nodup →
    (l.eraseP (fun s => decide (s.id = sid))).find? (fun s => decide (s.id = sid)) = none := by
  intro l
  induction l with
  | nil => intro _; rfl
  | cons a l ih =>
      intro hnd
      rw [List.map_cons, List.nodup_cons] at hnd
      obtain ⟨hna, hnd⟩ := hnd
      by_cases ha : a.id = sid
      · rw [List.eraseP_cons_of_pos (by simp [ha])]
        rw [List.find?_eq_none]
        intro s hsl
        simp only [decide_eq_true_eq]
        intro hss
        exact hna (List.mem_map.mpr ⟨s, hsl, by rw [hss, ha]⟩)
      · rw [List.eraseP_cons_of_neg (by simp [ha])]
        rw [List.find?_cons_of_neg _ (by simp [ha])]
        exact ih hnd

theorem mem_eraseP_of_ne (sid : Int) (t : StudentR) (ht : t.id ≠ sid) :
    ∀ l : List StudentR, t ∈ l → t ∈ l.eraseP (fun s => decide (s.id = sid)) := by
  intro l
  induction l with
  | nil => intro h; exact absurd h (List.not_mem_nil t)
  | cons a l ih =>
      intro hmem
      by_cases ha : a.id = sid
      · rw [List.eraseP_cons_of_pos (by simp [ha])]
        rcases List.mem_cons.mp hmem with rfl | h
        · exact absurd ha ht
        · exact h
      · rw [List.eraseP_cons_of_neg (by simp [ha])]
        rcases List.mem_cons.mp hmem with rfl | h
        · exact List.mem_cons_self t _
        · exact List.mem_cons_of_mem a (ih h)

/-- C6: deleting a student id that does not exist is a 404; deleting an
existing one removes exactly that row — subsequent detail and edit on the id
are 404 — and leaves every BehaviorLog and ActivityLog row unchanged. -/
theorem student_delete_frame (db : DB) (sid : Int) :
    (find_student db sid = none → student_delete db sid = none) ∧
    (∀ db' : DB, student_delete db sid = some db' →
      (db.students.map (·.id)).Nodup →
      find_student db' sid = none ∧
      (∀ f : StudentForm, student_edit db' sid f = none) ∧
      student_detail db' sid = none ∧
      db'.behavior_logs = db.behavior_logs ∧
      db'.activity_logs = db.activity_logs ∧
      (∀ t ∈ db.students, t.id ≠ sid → t ∈ db'.students) ∧
      (∀ t ∈ db'.students, t ∈ db.students)) := by
  constructor
  · intro hnone
    unfold student_delete
    rw [hnone]
  · intro db' hdel hnd
    cases hfind : find_student db sid with
    | none =>
        unfold student_delete at hdel
        rw [hfind] at hdel
        cases hdel
    | some s =>
        unfold student_delete at hdel
        rw [hfind] at hdel
        have hdb' := (Option.some.inj hdel).symm
        subst hdb'
        have hfs : find_student
            { db with students := db.students.eraseP (fun s => decide (s.id = sid)) } sid
              = none := by
          unfold find_student
          exact find?_eraseP_of_nodup sid db.students hnd
        refine ⟨hfs, ?_, ?_, rfl, rfl, ?_, ?_⟩
        · intro f
          unfold student_edit
          rw [hfs]
        · unfold student_detail
          rw [hfs]
        · intro t htmem htne
          exact mem_eraseP_of_ne sid t htne db.students htmem
        · intro t htmem
          exact (List.eraseP_sublist db.students).subset htmem

/-- C6 witness: deleting student 1 from the one-student database removes the
row, makes detail/edit 404, and leaves the log tables untouched. -/
theorem student_delete_frame_witness :
    find_student { dbOneStudent with students := [] } 1 = none ∧
    (∀ f : StudentForm, student_edit { dbOneStudent with students := [] } 1 f = none) ∧
    student_detail { dbOneStudent with students := [] } 1 = none ∧
    ({ dbOneStudent with students := ([] : List StudentR) } : DB).behavior_logs =
      dbOneStudent.behavior_logs ∧
    ({ dbOneStudent with students := ([] : List StudentR) } : DB).activity_logs =
      dbOneStudent.activity_logs ∧
    (∀ t ∈ dbOneStudent.students, t.id ≠ 1 →
      t ∈ ({ dbOneStudent with students := ([] : List StudentR) } : DB).students) ∧
    (∀ t ∈ ({ dbOneStudent with students := ([] : List StudentR) } : DB).students,
      t ∈ dbOneStudent.students) :=
  (student_delete_frame dbOneStudent 1).2 { dbOneStudent with students := [] }
    (by decide) (by decide)


theorem strLower_eq_empty_iff (s : String) : strLower s = "" ↔ s = "" := by
  constructor
  · intro h
    have h3 : s.data.map Char.toLower = [] := congrArg String.data h
    cases s with
    | mk d =>
        cases d with
        | nil => rfl
        | cons c cs => exact absurd h3 (by simp)
  · intro h
    rw [h]
    rfl

/-- C3: registration fails (no User row created) exactly when the submitted
name, email or password is empty, or a User already exists whose email equals
the submitted email case-insensitively (stored emails being normalized to
lowercase); in particular a second account with the same email in another
letter case is rejected. -/
theorem register_rejects_empty_or_duplicate (hash : String → String) (db : DB)
    (name email password : String)
    (hnorm : ∀ u ∈ db.users, strLower u.email = u.email) :
    ((register hash db name email password).2 = false ↔
      pyStrip name = "" ∨ pyStrip email = "" ∨ password = "" ∨
        ∃ u ∈ db.users, strLower u.email = strLower (pyStrip email)) ∧
    ((register hash db name email password).2 = false →
      (register hash db name email password).1 = db) ∧
    (register hashId (register hashId emptyDB "A" "x@y.z" "p").1 "B" "X@Y.Z" "p2").2
      = false := by
  have hdup : (db.users.find? (fun u => decide (u.email = strLower (pyStrip email)))).isSome
      ↔ ∃ u ∈ db.users, strLower u.email = strLower (pyStrip email) := by
    rw [List.find?_isSome]
    constructor
    · rintro ⟨u, hu, hp⟩
      rw [decide_eq_true_eq] at hp
      exact ⟨u, hu, by rw [hnorm u hu, hp]⟩
    · rintro ⟨u, hu, hp⟩
      refine ⟨u, hu, ?_⟩
      rw [decide_eq_true_eq, ← hnorm u hu, hp]
  refine ⟨?_, ?_, by decide⟩
  · simp only [register]
    split_ifs with hA hB
    · simp only [eq_self_iff_true, true_iff]
      rcases hA with h | h | h
      · exact Or.inl h
      · exact Or.inr (Or.inl ((strLower_eq_empty_iff _).mp h))
      · exact Or.inr (Or.inr (Or.inl h))
    · simp only [eq_self_iff_true, true_iff]
      exact Or.inr (Or.inr (Or.inr (hdup.mp hB)))
    · simp only [Bool.true_eq_false, false_iff]
      rintro (h | h | h | h)
      · exact hA (Or.inl h)
      · exact hA (Or.inr (Or.inl ((strLower_eq_empty_iff _).mpr h)))
      · exact hA (Or.inr (Or.inr h))
      · exact hB (hdup.mpr h)
  · simp only [register]
    split_ifs <;> intro h <;> first | rfl | (exact absurd h (by simp))

/-- C3 witness: registering a different-case variant of an existing e-mail on
the one-user database is rejected. -/
theorem register_rejects_empty_or_duplicate_witness :
    (register hashId dbOneUser "Bob" "A@B.c" "pw").2 = false :=
  (register_rejects_empty_or_duplicate hashId dbOneUser "Bob" "A@B.c" "pw"
    (by decide)).1.mpr
    (Or.inr (Or.inr (Or.inr
      ⟨⟨1, "Admin", "a@b.c", "x", "admin"⟩, by decide, by decide⟩)))

/-- C4: whenever a login attempt fails — whether the email is unknown or the
email exists but the password check fails — no session is established and the
response carries the same generic invalid-credentials message, so the two
failure causes are indistinguishable to the client. -/
theorem login_failure_indistinguishable (checkPw : String → String → Bool)
    (db : DB) (email password : String) :
    ((login checkPw db email password).1 = none →
      (login checkPw db email password).2 = some loginFailMsg) ∧
    (db.users.find? (fun u => decide (u.email = strLower (pyStrip email))) = none →
      login checkPw db email password = (none, some loginFailMsg)) ∧
    (∀ u : UserR,
      db.users.find? (fun u => decide (u.email = strLower (pyStrip email))) = some u →
      checkPw u.password_hash password = false →
      login checkPw db email password = (none, some loginFailMsg)) := by
  simp only [login]
  cases hfind : db.users.find? (fun u => decide (u.email = strLower (pyStrip email))) with
  | none =>
      exact ⟨fun _ => rfl, fun _ => rfl, fun u hu => absurd hu (by simp)⟩
  | some u =>
      dsimp only
      by_cases hc : checkPw u.password_hash password
      · rw [if_pos hc]
        refine ⟨fun h => ?_, fun h => ?_, fun v hv hcp => ?_⟩
        · cases h
        · cases h
        · have hvu := Option.some.inj hv
          subst hvu
          rw [hcp] at hc
          cases hc
      · rw [if_neg hc]
        exact ⟨fun _ => rfl, fun _ => rfl, fun _ _ _ => rfl⟩

/-- C4 witness: an unknown e-mail on the one-user database fails with no
session and the generic message. -/
theorem login_failure_indistinguishable_witness :
    login cpNone dbOneUser "ghost@x" "pw" = (none, some loginFailMsg) :=
  (login_failure_indistinguishable cpNone dbOneUser "ghost@x" "pw").2.1 (by decide)

/-- C7 counterexample: on a database holding the activity "Reading", an update
submission with a blank title is NOT rejected — the handler commits, and the
stored activity's title becomes blank.  This refutes the claim that Activity
Update rejects a blank title like Activity Create does. -/
theorem activity_edit_blank_title_saved :
    activity_edit dbOneActivity 1 ⟨"", "d2", "c2", 6, 12⟩ =
      some ({ dbOneActivity with activities := [⟨1, "", "d2", "c2", 6, 12, 1⟩] }, true) ∧
    (activity_new dbOneActivity 1 ⟨"", "d2", "c2", 6, 12⟩).2 = false := by
  constructor <;> decide

/-- C7 amended: Activity Create rejects a blank title, but Activity Update
performs no validation at all: for every existing activity it overwrites every
field with the submitted values — a blank title included — and commits
unconditionally. -/
theorem activity_edit_no_validation (db : DB) (uid aid : Int) (f : ActivityForm)
    (item : ActivityR) (hfind : find_activity db aid = some item) :
    (pyStrip f.title = "" → activity_new db uid f = (db, false)) ∧
    activity_edit db aid f =
      some ({ db with activities := db.activities.map (fun t =>
        if t.id = aid then
          { item with title := pyStrip f.title, description := f.description
                    , category := f.category, age_min := f.age_min
                    , age_max := f.age_max }
        else t) }, true) := by
  constructor
  · intro hblank
    simp only [activity_new]
    rw [if_pos hblank]
  · simp only [activity_edit]
    rw [hfind]

/-- C7 amended witness: on the one-activity database, a blank-title create is
rejected while the same blank-title update is committed. -/
theorem activity_edit_no_validation_witness :
    activity_new dbOneActivity 1 ⟨"", "", "", 6, 12⟩ = (dbOneActivity, false) :=
  (activity_edit_no_validation dbOneActivity 1 1 ⟨"", "", "", 6, 12⟩
    ⟨1, "Reading", "d", "c", 6, 12, 1⟩ (by decide)).1 (by decide)
